import Mathlib

set_option autoImplicit false
set_option linter.unusedVariables false

namespace Structx

/-- Model of a dynamically typed Python value as it flows through the
extraction pipeline: cells of a pandas DataFrame, results of
`model_dump()`, JSON-serializable data. -/
inductive PyVal where
  | pynone
  | int (n : Int)
  | bool (b : Bool)
  | str (s : String)
  | list (elems : List PyVal)
  | dict (fields : List (String × PyVal))

/-- Python `dict` assignment `d[k] = v` on an insertion-ordered mapping:
when the key is present its value is replaced in place, otherwise the
pair is appended at the end. -/
def dictInsert : List (String × PyVal) → String → PyVal → List (String × PyVal)
  | [], k, v => [(k, v)]
  | (k', v') :: rest, k, v =>
    if k' = k then (k', v) :: rest else (k', v') :: dictInsert rest k v

/-- Python `dict.update(other)`: insert every pair of `other` in order. -/
def dictUpdate (acc other : List (String × PyVal)) : List (String × PyVal) :=
  other.foldl (fun a kv => dictInsert a kv.1 kv.2) acc

mutual

/-- Model of `json.dumps` on the value constructors above (string
escaping is not modelled; the flattening claims only serialize numbers
and escape-free strings). -/
def pyDumps : PyVal → String
  | .pynone => "null"
  | .int n => toString n
  | .bool b => if b then "true" else "false"
  | .str s => "\"" ++ s ++ "\""
  | .list xs => "[" ++ pyDumpsList xs ++ "]"
  | .dict fs => "\x7b" ++ pyDumpsFields fs ++ "\x7d"

/-- Comma-separated `json.dumps` rendering of list elements. -/
def pyDumpsList : List PyVal → String
  | [] => ""
  | [x] => pyDumps x
  | x :: y :: rest => pyDumps x ++ ", " ++ pyDumpsList (y :: rest)

/-- Comma-separated `json.dumps` rendering of dict entries. -/
def pyDumpsFields : List (String × PyVal) → String
  | [] => ""
  | [(k, v)] => "\"" ++ k ++ "\": " ++ pyDumps v
  | (k, v) :: f :: rest => "\"" ++ k ++ "\": " ++ pyDumps v ++ ", " ++ pyDumpsFields (f :: rest)

end

/-- Error taxonomy of `structx.core.exceptions`. Modelled from the spec:
`core/exceptions.py` is not under `src/`; spec §4.4 describes three
independent raisable kinds (configuration, file, extraction); `other`
stands for any foreign exception (provider error, validation error,
`KeyError`, `AttributeError`, ...). -/
inductive ErrKind where
  | configuration
  | file
  | extraction
  | other
deriving DecidableEq

/-- A raised Python exception: its kind and its `str(e)` message. -/
structure PyError where
  kind : ErrKind
  msg : String
deriving DecidableEq

/-- Embedding of the `handle_errors` decorator (utils/helpers.py): run
the wrapped computation; on any exception either return the configured
`default_return` (when it is not `None`) or re-raise as `error_type`
with the composed message `"<error_message>: <str(e)>"`. The original
exception's kind is not consulted. -/
def handle_errors {α : Type} (errorMessage : String) (errorType : ErrKind)
    (defaultReturn : Option α) (body : Except PyError α) : Except PyError α :=
  match body with
  | .ok v => .ok v
  | .error e =>
    match defaultReturn with
    | some d => .ok d
    | none => .error ⟨errorType, errorMessage ++ ": " ++ e.msg⟩

/-- Check `isinstance(value[0], dict)` used by `flatten_extracted_data`. -/
def PyVal.isDict : PyVal → Bool
  | .dict _ => true
  | _ => false

mutual

/-- The `for key, value in data.items()` loop of `flatten_extracted_data`
(utils/helpers.py), threading the `flattened` accumulator dict. A nested
dict is recursed into (with a fresh accumulator, as Python builds a fresh
`flattened = {}` per recursive call) under the composite key
`<prefix>_<key>` and the result merged by `dict.update`; a list whose
first element is a dict is flattened element-wise; any other list is
stored whole as its `json.dumps` string under the unflattened key;
scalars are copied. -/
def flattenLoop : List (String × PyVal) → String → List (String × PyVal) →
    Except PyError (List (String × PyVal))
  | [], _, acc => .ok acc
  | (key, value) :: rest, pre, acc =>
    let new_key := if pre ≠ "" then pre ++ "_" ++ key else key
    match value with
    | .dict fields =>
      match flattenLoop fields new_key [] with
      | .error e => .error e
      | .ok nested => flattenLoop rest pre (dictUpdate acc nested)
    | .list elems =>
      match elems with
      | e0 :: tl =>
        if e0.isDict then
          match flattenItems (e0 :: tl) new_key 0 acc with
          | .error e => .error e
          | .ok acc' => flattenLoop rest pre acc'
        else
          flattenLoop rest pre (dictInsert acc new_key (.str (pyDumps (.list (e0 :: tl)))))
      | [] =>
        flattenLoop rest pre (dictInsert acc new_key (.str (pyDumps (.list ([] : List PyVal)))))
    | v => flattenLoop rest pre (dictInsert acc new_key v)
termination_by data _ _ => sizeOf data
decreasing_by all_goals simp_wf <;> omega

/-- The `for i, item in enumerate(value)` loop of `flatten_extracted_data`
over a list of nested dicts, updating the shared accumulator; a non-dict
element raises `AttributeError` (Python calls `.items()` on it). -/
def flattenItems : List PyVal → String → Nat → List (String × PyVal) →
    Except PyError (List (String × PyVal))
  | [], _, _, acc => .ok acc
  | item :: rest, new_key, i, acc =>
    match item with
    | .dict fields =>
      match flattenLoop fields (new_key ++ "_" ++ toString i) [] with
      | .error e => .error e
      | .ok nested => flattenItems rest new_key (i + 1) (dictUpdate acc nested)
    | _ => .error ⟨.other, "AttributeError: items"⟩
termination_by items _ _ _ => sizeOf items
decreasing_by all_goals simp_wf <;> omega

end

/-- Embedding of `flatten_extracted_data` (utils/helpers.py): flatten a
nested field-to-value mapping for DataFrame storage, starting from the
empty `flattened` accumulator. -/
def flatten_extracted_data (data : List (String × PyVal)) (pre : String) :
    Except PyError (List (String × PyVal)) :=
  flattenLoop data pre []

/-- Embedding of `QueryRefinement` (core/models.py): refined query with
optional data characteristics and structural requirements. -/
structure QueryRefinement where
  refined_query : String
  data_characteristics : Option (List String)
  structural_requirements : Option (List (String × String))

/-- Embedding of `QueryAnalysis` (core/models.py). -/
structure QueryAnalysis where
  target_column : String
  extraction_purpose : String

/-- Embedding of `ExtractionGuide` (core/models.py); `extra` holds the
unanticipated fields tolerated by `Config.extra = "allow"`. -/
structure ExtractionGuide where
  structural_patterns : Option (List (String × String))
  relationship_rules : Option (List String)
  organization_principles : Option (List String)
  extra : List (String × PyVal)

/-- Embedding of `ModelField` (core/models.py). -/
inductive ModelField where
  | mk (name : String) (type : String) (description : String)
      (validation : List (String × PyVal)) (nested_fields : Option (List ModelField))

/-- Field name of a `ModelField`. -/
def ModelField.name : ModelField → String
  | .mk n _ _ _ _ => n

/-- Embedding of `ExtractionRequest` (core/models.py). -/
structure ExtractionRequest where
  model_name : String
  model_description : String
  fields : List ModelField
  extraction_strategy : String

/-- Semantics of Python `string.Template.substitute(mapping)`: scanning
the template's named placeholders in order of occurrence, the first one
without a supplied mapping entry raises `KeyError(<placeholder>)`;
when every placeholder is supplied the substitution succeeds. -/
def templateSubstitute (placeholders : List String) (supplied : List String) :
    Except String Unit :=
  match placeholders.find? (fun p => ¬ supplied.contains p) with
  | some missing => .error missing
  | none => .ok ()

/-- Named placeholders of `guide_template` (utils/prompts.py): the
template text references `${data_characteristics}` and then
`${available_columns}`. -/
def guide_template_placeholders : List String :=
  ["data_characteristics", "available_columns"]

/-- The user-prompt construction of `_generate_extraction_guide`
(extractor.py): `guide_template.substitute(data_characteristics=
refined_query.data_characteristics)` supplies exactly the single
mapping key `data_characteristics`. -/
def generate_guide_user_prompt (refined_query : QueryRefinement) :
    Except String Unit :=
  templateSubstitute guide_template_placeholders ["data_characteristics"]

/-- Embedding of the tenacity retry loop built by `create_retry_decorator`
(extractor.py): `stop_after_attempt(max_retries)` bounds the attempt
count, `retry_if_exception_type(ExtractionError)` retries only when the
raised exception is of the extraction kind and re-raises any other
failure at once, and `wait_exponential` affects only timing (not
modelled). `n` is the 1-based number of the attempt about to run and
`fuel = max_retries - n` the number of further attempts still allowed;
the result carries the final outcome and the number of attempts made.
After exhaustion tenacity raises a `RetryError` wrapping the last
attempt; the embedding keeps the last attempt's kind and message. -/
def retryGo {α : Type} (attempt : Nat → Except PyError α) :
    Nat → Nat → Except PyError α × Nat
  | n, fuel =>
    match attempt n with
    | .ok v => (.ok v, n)
    | .error e =>
      if e.kind = ErrKind.extraction then
        match fuel with
        | 0 => (.error e, n)
        | f + 1 => retryGo attempt (n + 1) f
      else (.error e, n)

/-- The decorated call `extract_with_retry(...)`: run the attempts from
attempt 1 with `max_retries - 1` retries available after it. -/
def retryRun {α : Type} (max_retries : Nat) (attempt : Nat → Except PyError α) :
    Except PyError α × Nat :=
  retryGo attempt 1 (max_retries - 1)

/-- An extracted item: the validated generated-model instance, observed
through `model_dump()` as a field-to-value mapping. -/
abbrev Item := List (String × PyVal)

/-- Embedding of `_extract_with_model` (extractor.py): the dynamically
created retry decorator applied to `_extract_without_retry`, wrapped by
`handle_errors("Data extraction failed after all retries",
ExtractionError)`. One attempt abstracts one `_extract_without_retry`
call (the structured completion plus per-item re-validation; its prompt
substitution supplies every placeholder of `extraction_template`). -/
def extract_with_model (max_retries : Nat)
    (attempt : Nat → Except PyError (List Item)) : Except PyError (List Item) :=
  handle_errors "Data extraction failed after all retries" .extraction none
    (retryRun max_retries attempt).1

/-- Keyword arguments forwarded verbatim to a pandas reader. -/
abbrev Kwargs := List (String × String)

/-- One row of an in-memory table: its index label and its cells as an
insertion-ordered column-to-value mapping. -/
abbrev Row := List (String × PyVal)

/-- In-memory model of a pandas DataFrame. -/
structure DataFrame where
  cols : List String
  rows : List (Nat × Row)

/-- The external world seen by `FileReader`: which paths exist, each
path's `Path(...).suffix`, and the outcome of the format-appropriate
pandas reader on a path with given reader kwargs. -/
structure FileSys where
  fileExists : String → Bool
  pathSuffix : String → String
  readData : String → Kwargs → Except PyError DataFrame

/-- Python `str.lower`, mapped characterwise (`String.toLower` itself is
defined through `String.mapAux`, which does not kernel-reduce; on the
ASCII suffixes involved the two agree). -/
def pyLower (s : String) : String :=
  ⟨s.data.map Char.toLower⟩

/-- The keys of `FileReader.SUPPORTED_EXTENSIONS` (utils/file_reader.py),
in declaration order. -/
def SUPPORTED_EXTENSIONS : List String :=
  [".csv", ".xlsx", ".xls", ".json", ".parquet"]

/-- Embedding of `FileReader.validate_file` (utils/file_reader.py):
raise `FileError` when the path does not exist; otherwise raise
`FileError` when the lowercased suffix is not a supported extension;
otherwise return the path. -/
def validate_file (fs : FileSys) (file_path : String) : Except PyError String :=
  if ¬ fs.fileExists file_path then
    .error ⟨.file, "File not found: " ++ file_path⟩
  else if ¬ SUPPORTED_EXTENSIONS.contains (pyLower (fs.pathSuffix file_path)) then
    .error ⟨.file, "Unsupported file format: " ++ fs.pathSuffix file_path ++
      ". Supported formats: " ++ String.intercalate ", " SUPPORTED_EXTENSIONS⟩
  else
    .ok file_path

/-- Embedding of `FileReader.read_file` (utils/file_reader.py): validate,
dispatch to the reader for the lowercased suffix, raise `FileError` for
an empty table; any exception that is not already a `FileError` is
wrapped as `FileError("Error reading file <path>: <msg>")`. -/
def read_file (fs : FileSys) (file_path : String) (kwargs : Kwargs) :
    Except PyError DataFrame :=
  let body : Except PyError DataFrame := do
    let path ← validate_file fs file_path
    let df ← fs.readData path kwargs
    if df.rows.isEmpty then
      .error ⟨.file, "File " ++ path ++ " is empty"⟩
    else
      .ok df
  match body with
  | .ok df => .ok df
  | .error e =>
    if e.kind = ErrKind.file then .error e
    else .error ⟨.file, "Error reading file " ++ file_path ++ ": " ++ e.msg⟩

/-- Embedding of `FailedRow` (the per-row dict appended to `failed_rows`
by `_handle_extraction_error`): index, source text, `str(error)` and
`datetime.now().isoformat()` at the time of failure. -/
structure FailedRow where
  index : Nat
  text : PyVal
  error : String
  timestamp : String

/-- The generated extraction model, observed through the attributes the
pipeline uses: its declared field names (`__fields__`). Modelled from the
spec: `extraction/generator.py` is not under `src/`; spec §4.2 states
every field declared in the request becomes an attribute of the
generated type. -/
structure GenModel where
  fieldNames : List String

/-- Embedding of `ExtractionResult` (core/models.py): container with
`data` (DataFrame or list of model instances), `failed` (DataFrame of
failed extractions) and `model` (the generated model class) — these
three attributes and nothing else. -/
structure ExtractionResult where
  data : Sum DataFrame (List Item)
  failed : List FailedRow
  model : GenModel

/-- Embedding of `ExtractionResult.success_count`: `len(self.data)` in
both the DataFrame and the list case. -/
def ExtractionResult.success_count (r : ExtractionResult) : Nat :=
  match r.data with
  | .inl df => df.rows.length
  | .inr items => items.length

/-- Embedding of `ExtractionResult.failure_count`: `len(self.failed)`. -/
def ExtractionResult.failure_count (r : ExtractionResult) : Nat :=
  r.failed.length

/-- Embedding of `ExtractionResult.success_rate`:
`success_count / total * 100` when `total > 0`, else `0`. -/
def ExtractionResult.success_rate (r : ExtractionResult) : ℚ :=
  let total : ℚ := (r.success_count : ℚ) + (r.failure_count : ℚ)
  if 0 < total then (r.success_count : ℚ) / total * 100 else 0

/-- Tunables of an `Extractor` instance (constructor arguments). -/
structure Params where
  max_threads : Nat
  batch_size : Nat
  max_retries : Nat
  min_wait : Nat
  max_wait : Nat

/-- Outcomes of the external structured-completion calls during one
`extract` invocation (the instructor/LLM boundary of spec §6): one
outcome per pipeline stage, one attempt function per row index for the
per-row extraction stage, and the `datetime.now().isoformat()` reading
observed when a row fails. -/
structure Oracles where
  analyzeRes : Except PyError QueryAnalysis
  refineRes : Except PyError QueryRefinement
  guideRes : Except PyError ExtractionGuide
  schemaRes : Except PyError ExtractionRequest
  rowAttempt : Nat → Nat → Except PyError (List Item)
  nowAt : Nat → String

/-- Modelled from the spec: `ModelGenerator.from_extraction_request`
(extraction/generator.py is not under `src/`) produces a record type
whose attributes are exactly the request's declared fields (spec §4.2);
the pipeline observes it only through its `__fields__` names. -/
def from_extraction_request (req : ExtractionRequest) : GenModel :=
  ⟨req.fields.map ModelField.name⟩

/-- Python `df[column].iloc[0]` (`_initialize_extraction`): `KeyError`
when the column is absent, `IndexError` on an empty frame, otherwise the
first row's cell in that column. -/
def sampleText (df : DataFrame) (column : String) : Except PyError PyVal :=
  if ¬ df.cols.contains column then
    .error ⟨.other, "KeyError: " ++ column⟩
  else
    match df.rows with
    | [] => .error ⟨.other, "IndexError: single positional indexer is out-of-bounds"⟩
    | (_, r) :: _ =>
      match r.lookup column with
      | some v => .ok v
      | none => .error ⟨.other, "KeyError: " ++ column⟩

/-- Embedding of `_analyze_query`: the completion outcome wrapped by
`handle_errors("Query analysis failed", ExtractionError)` (its prompt
substitution supplies every placeholder of `query_analysis_template`). -/
def analyze_query (oc : Oracles) : Except PyError QueryAnalysis :=
  handle_errors "Query analysis failed" .extraction none oc.analyzeRes

/-- Embedding of `_refine_query`: the completion outcome wrapped by
`handle_errors("Query refinement failed", ExtractionError)`. -/
def refine_query (oc : Oracles) : Except PyError QueryRefinement :=
  handle_errors "Query refinement failed" .extraction none oc.refineRes

/-- Embedding of `_generate_extraction_schema`: the completion outcome
wrapped by `handle_errors("Schema generation failed", ExtractionError)`
(its prompt substitution supplies every placeholder of
`schema_template`). -/
def generate_extraction_schema (oc : Oracles) : Except PyError ExtractionRequest :=
  handle_errors "Schema generation failed" .extraction none oc.schemaRes

/-- What `_initialize_extraction` hands to the rest of `_process_data`. -/
structure InitBundle where
  query_analysis : QueryAnalysis
  refined_query : QueryRefinement
  guide : ExtractionGuide
  model : GenModel

/-- Embedding of `_initialize_extraction` (extractor.py): analyze, refine,
read the sample text `df[target_column].iloc[0]`, generate the guide
(`_generate_extraction_guide` carries no `handle_errors` decorator of its
own), generate the schema and build the model; the whole body is wrapped
by `handle_errors("Failed to initialize extraction", ExtractionError)`.
The guide-stage completion outcome abstracts the stage's prompt
construction; the defect of that construction is settled separately
against `generate_guide_user_prompt`. -/
def initialize_extraction (oc : Oracles) (df : DataFrame) (query : String) :
    Except PyError InitBundle :=
  handle_errors "Failed to initialize extraction" .extraction none (do
    let qa ← analyze_query oc
    let rq ← refine_query oc
    let _sample ← sampleText df qa.target_column
    let guide ← oc.guideRes
    let req ← generate_extraction_schema oc
    .ok ⟨qa, rq, guide, from_extraction_request req⟩)

/-- Pandas column assignment `df[name] = value`: overwrite an existing
column or append a new one, setting the value in every row. -/
def dfSetCol (df : DataFrame) (name : String) (v : PyVal) : DataFrame :=
  { cols := if df.cols.contains name then df.cols else df.cols ++ [name],
    rows := df.rows.map (fun r => (r.1, dictInsert r.2 name v)) }

/-- Embedding of `_initialize_results` (extractor.py): copy the input
frame and add one `None` column per generated-model field plus an
`extraction_status` column. -/
def initialize_results (df : DataFrame) (model : GenModel) : DataFrame :=
  (model.fieldNames ++ ["extraction_status"]).foldl
    (fun d f => dfSetCol d f .pynone) df

/-- Pandas `df.at[row_idx, col] = v`: update the cell of the row labelled
`row_idx` (a write to a not-yet-present column is modelled as inserting
the cell into that row). -/
def setCell (df : DataFrame) (row_idx : Nat) (col : String) (v : PyVal) :
    DataFrame :=
  { cols := if df.cols.contains col then df.cols else df.cols ++ [col],
    rows := df.rows.map
      (fun r => if r.1 = row_idx then (r.1, dictInsert r.2 col v) else r) }

/-- Read a cell of the result frame by row label and column name. -/
def getCell (df : DataFrame) (row_idx : Nat) (col : String) : Option PyVal :=
  match df.rows.find? (fun r => r.1 = row_idx) with
  | some r => r.2.lookup col
  | none => none

/-- The shared mutable result containers of `_process_data`. -/
structure ResultState where
  result_df : DataFrame
  result_list : List Item
  failed_rows : List FailedRow

/-- Embedding of the item loop of `_update_dataframe` (extractor.py):
write each item's (optionally flattened) field values into the row's
cells, suffixing `_<i>` on the field names of items after the first,
and finally mark `extraction_status = "Success"`. An exception raised by
flattening aborts the loop; earlier writes stay in place and the error
is reported alongside the partially updated frame. -/
def updateLoop (row_idx : Nat) (expand_nested : Bool) :
    DataFrame → List Item → Nat → DataFrame × Option PyError
  | df, [], _ => (setCell df row_idx "extraction_status" (.str "Success"), none)
  | df, item :: rest, i =>
    match (if expand_nested then flatten_extracted_data item "" else .ok item) with
    | .error e => (df, some e)
    | .ok item_data =>
      let item_data :=
        if 0 < i then item_data.map (fun kv => (kv.1 ++ "_" ++ toString i, kv.2))
        else item_data
      updateLoop row_idx expand_nested
        (item_data.foldl (fun d kv => setCell d row_idx kv.1 kv.2) df) rest (i + 1)

/-- Embedding of `_update_dataframe`. -/
def update_dataframe (df : DataFrame) (items : List Item) (row_idx : Nat)
    (expand_nested : Bool) : DataFrame × Option PyError :=
  updateLoop row_idx expand_nested df items 0

/-- Embedding of `_handle_extraction_error` (extractor.py): append a
failure record (row index, source text, `str(error)`,
`datetime.now().isoformat()`) to `failed_rows` and set the row's
`extraction_status` cell to `"Failed: <message>"`. -/
def handle_extraction_error (st : ResultState) (row_idx : Nat)
    (row_text : PyVal) (e : PyError) (now : String) : ResultState :=
  { st with
    failed_rows := st.failed_rows ++ [⟨row_idx, row_text, e.msg, now⟩],
    result_df := setCell st.result_df row_idx "extraction_status"
      (.str ("Failed: " ++ e.msg)) }

/-- Embedding of the worker closure built by `_create_extraction_worker`
(extractor.py): run `_extract_with_model` for the row; on success either
write the items into the row's cells (`return_df`) or extend the shared
flat list; any exception raised inside the `try` block is converted by
`_handle_extraction_error` into ledger data and never re-raised. Workers
run one per row gated by a semaphore; the embedding serializes them in
row-dispatch order (each frame write targets its own row label and list
appends keep submission order). -/
def extract_worker (p : Params) (oc : Oracles) (return_df expand_nested : Bool)
    (st : ResultState) (row_text : PyVal) (row_idx : Nat) : ResultState :=
  match extract_with_model p.max_retries (oc.rowAttempt row_idx) with
  | .ok items =>
    if return_df then
      match update_dataframe st.result_df items row_idx expand_nested with
      | (df', none) => { st with result_df := df' }
      | (df', some e) =>
        handle_extraction_error { st with result_df := df' } row_idx row_text e
          (oc.nowAt row_idx)
    else
      { st with result_list := st.result_list ++ items }
  | .error e => handle_extraction_error st row_idx row_text e (oc.nowAt row_idx)

/-- Embedding of `_process_batch` (extractor.py): start one worker per
row of the batch — `row[target_column]` is evaluated on the orchestrating
thread when the worker's arguments are built and raises there when the
column is missing — and join them all before returning. -/
def process_batch (p : Params) (oc : Oracles) (return_df expand_nested : Bool)
    (target_column : String) :
    List (Nat × Row) → ResultState → Except PyError ResultState
  | [], st => .ok st
  | (idx, row) :: rest, st =>
    match row.lookup target_column with
    | none => .error ⟨.other, "KeyError: " ++ target_column⟩
    | some text =>
      process_batch p oc return_df expand_nested target_column rest
        (extract_worker p oc return_df expand_nested st text idx)

/-- Fuelled batch slicing: `chunksGo n fuel l` cuts `l` into consecutive
chunks of `n` elements; with `n ≥ 1` a fuel of `l.length` always
suffices. -/
def chunksGo {α : Type} (n : Nat) : Nat → List α → List (List α)
  | 0, _ => []
  | _, [] => []
  | fuel + 1, x :: xs => ((x :: xs).take n) :: chunksGo n fuel ((x :: xs).drop n)

/-- The batch slices `df.iloc[batch_start : batch_start + batch_size]`
produced by the `range(0, len(df), batch_size)` loop of `_process_data`
(for a positive batch size). -/
def chunksOf {α : Type} (n : Nat) (l : List α) : List (List α) :=
  chunksGo n l.length l

/-- The batch loop of `_process_data`: process the chunks in order,
threading the shared result state. -/
def runAllBatches (p : Params) (oc : Oracles) (return_df expand_nested : Bool)
    (target_column : String) :
    List (List (Nat × Row)) → ResultState → Except PyError ResultState
  | [], st => .ok st
  | b :: bs, st =>
    match process_batch p oc return_df expand_nested target_column b st with
    | .error e => .error e
    | .ok st' => runAllBatches p oc return_df expand_nested target_column bs st'

/-- Embedding of `_process_data` (extractor.py): initialize the pipeline
and the result containers, process the rows in batches of `batch_size`,
and return the tuple `(result_df if return_df else result_list,
failed_df)`; wrapped by `handle_errors("Data processing failed",
ExtractionError)`. A zero batch size makes Python's
`range(0, len(df), 0)` raise `ValueError`. -/
def process_data (p : Params) (oc : Oracles) (df : DataFrame) (query : String)
    (return_df : Bool) (expand_nested : Bool) :
    Except PyError (Sum DataFrame (List Item) × List FailedRow) :=
  handle_errors "Data processing failed" .extraction none (do
    let ib ← initialize_extraction oc df query
    let st0 : ResultState := ⟨initialize_results df ib.model, [], []⟩
    match p.batch_size with
    | 0 => .error ⟨.other, "ValueError: range() arg 3 must not be zero"⟩
    | b + 1 => do
      let st ← runAllBatches p oc return_df expand_nested
        ib.query_analysis.target_column (chunksOf (b + 1) df.rows) st0
      .ok ((if return_df then .inl st.result_df else .inr st.result_list),
        st.failed_rows))

/-- The dynamic Python value bound to a parameter whose truthiness the
code branches on: `extract`'s `return_df` receives a bool from direct
callers but — through `extract_batch`'s positional call — can receive a
kwargs dict or `None`. -/
inductive PyArg where
  | bool (b : Bool)
  | dict (kw : Kwargs)
  | pynoneArg

/-- Python truthiness of such a value (an empty dict is falsy). -/
def PyArg.truthy : PyArg → Bool
  | .bool b => b
  | .dict kw => ¬ kw.isEmpty
  | .pynoneArg => false

/-- Modelled from the spec: `UsageSummary` (usage accounting, spec §4.5;
the implementing module is not under `src/`): total token count plus the
ordered per-stage steps. Used only to state the return shape the spec
claims for `extract`. -/
structure UsageSummary where
  total_tokens : Nat
  steps : List (String × Nat)

/-- Modelled from the spec: the single result object the spec says
`extract` returns — attributes `data`, `failed`, `model` and `usage`
(spec §3 "ExtractionResult"). The code's `ExtractionResult` container
carries no usage attribute. -/
structure SpecExtractionResult where
  data : Sum DataFrame (List Item)
  failed : List FailedRow
  model : GenModel
  usage : UsageSummary

/-- The dynamic value returned by `extract`: the code returns the
2-tuple `(data, failed)` built by `_process_data`; the `resultObject`
alternative represents the result-object shape the spec claims. -/
inductive ExtractReturn where
  | pair (data : Sum DataFrame (List Item)) (failed : List FailedRow)
  | resultObject (r : SpecExtractionResult)

/-- Whether a returned value is the spec's claimed result object. -/
def ExtractReturn.isResultObject : ExtractReturn → Bool
  | .resultObject _ => true
  | .pair _ _ => false

/-- Embedding of `Extractor.extract` (extractor.py): load the DataFrame
(in-memory frames pass through; a path goes through
`FileReader.read_file` with `file_kwargs or {}`), run `_process_data`,
and return its `(data, failed)` tuple; the whole operation is wrapped by
`handle_errors("Batch extraction failed", ExtractionError)`. -/
def extract (fs : FileSys) (p : Params) (oc : Oracles)
    (data : Sum String DataFrame) (query : String) (return_df : PyArg)
    (expand_nested : Bool) (file_kwargs : Option Kwargs) :
    Except PyError ExtractReturn :=
  handle_errors "Batch extraction failed" .extraction none (do
    let df ← match data with
      | .inr d => .ok d
      | .inl path => read_file fs path (file_kwargs.getD [])
    let res ← process_data p oc df query return_df.truthy expand_nested
    .ok (.pair res.1 res.2))

/-- Python tuple unpacking `result_df, failed_df = self.extract(...)`:
succeeds on a 2-tuple; a result object would not be iterable. -/
def unpackPair : ExtractReturn →
    Except PyError (Sum DataFrame (List Item) × List FailedRow)
  | .pair d f => .ok (d, f)
  | .resultObject _ =>
    .error ⟨.other, "TypeError: cannot unpack non-iterable ExtractionResult object"⟩

/-- The `extract_batch` argument `file_kwargs` as the dynamic value it
becomes when passed positionally into `extract`'s `return_df` slot. -/
def pyArgOfKwargs : Option Kwargs → PyArg
  | none => .pynoneArg
  | some kw => .dict kw

/-- The query loop of `extract_batch`: for each query call
`self.extract(data, query, file_kwargs)` — three positional arguments,
so `file_kwargs` is bound to `extract`'s `return_df` parameter while
`extract`'s own `file_kwargs` keeps its default `None` — and record the
query's unpacked `(result_df, failed_df)` pair. -/
def batchLoop (fs : FileSys) (p : Params) (oc : Oracles)
    (data : Sum String DataFrame) (file_kwargs : Option Kwargs) :
    List String → List (String × (Sum DataFrame (List Item) × List FailedRow)) →
    Except PyError (List (String × (Sum DataFrame (List Item) × List FailedRow)))
  | [], acc => .ok acc
  | q :: rest, acc =>
    match extract fs p oc data q (pyArgOfKwargs file_kwargs) false none with
    | .error e => .error e
    | .ok ret =>
      match unpackPair ret with
      | .error e => .error e
      | .ok pr => batchLoop fs p oc data file_kwargs rest (acc ++ [(q, pr)])

/-- Embedding of `Extractor.extract_batch` (extractor.py), wrapped by
`handle_errors("Batch extraction failed", ExtractionError)`. -/
def extract_batch (fs : FileSys) (p : Params) (oc : Oracles)
    (data : Sum String DataFrame) (queries : List String)
    (file_kwargs : Option Kwargs) :
    Except PyError (List (String × (Sum DataFrame (List Item) × List FailedRow))) :=
  handle_errors "Batch extraction failed" .extraction none
    (batchLoop fs p oc data file_kwargs queries [])

/-- The regex character class `[a-f0-9]` of the commit-hash pattern in
`process_changelog` (scripts/generate_changelog.py). -/
def isHashChar (c : Char) : Bool :=
  ('a' ≤ c && c ≤ 'f') || c.isDigit

/-- Continue a `[a-f0-9]+` run until the closing backtick (at least one
hash character has already been consumed). -/
def hashClose : List Char → Bool
  | [] => false
  | c :: cs => if c = '`' then true else isHashChar c && hashClose cs

/-- Match `[a-f0-9]+` followed by a closing backtick. -/
def hashThenTick : List Char → Bool
  | [] => false
  | c :: cs => isHashChar c && hashClose cs

/-- Match an opening backtick followed by `[a-f0-9]+` and a closing
backtick at the current position. -/
def tickHashTick : List Char → Bool
  | [] => false
  | c :: cs => c = '`' && hashThenTick cs

/-- Match `.+` followed by the backtick-quoted hash: consume one or more
non-newline characters, with the quoted hash starting right after. -/
def dotPlusHash : List Char → Bool
  | [] => false
  | c :: cs => c ≠ '\n' && (tickHashTick cs || dotPlusHash cs)

/-- Match the full commit pattern at the current position: a dash and a
space, then `.+`, then the backtick-quoted hash run. -/
def commitMatchHere : List Char → Bool
  | '-' :: ' ' :: rest => dotPlusHash rest
  | _ => false

/-- Existence semantics of `re.search(r"- .+X[a-f0-9]+X", changes)` with
`X` a backtick: a match may start at any position; since `.` never
matches a newline, every match lies within one line but need not start
at a line's beginning. -/
def searchCommit : List Char → Bool
  | [] => false
  | c :: cs => commitMatchHere (c :: cs) || searchCommit cs

/-- The `has_commits` test of `process_changelog` on a version body. -/
def hasCommitMatch (s : String) : Bool :=
  searchCommit s.data

/-- Scan for a backtick-quoted nonempty `[a-f0-9]+` run anywhere. -/
def containsTickHash : List Char → Bool
  | [] => false
  | c :: cs => (c = '`' && hashThenTick cs) || containsTickHash cs

/-- Split a character sequence into its newline-separated lines. -/
def splitLines : List Char → List (List Char)
  | [] => [[]]
  | c :: cs =>
    if c = '\n' then [] :: splitLines cs
    else
      match splitLines cs with
      | [] => [[c]]
      | l :: ls => (c :: l) :: ls

/-- Whether a line starts with a dash and a space. -/
def startsDashSpace : List Char → Bool
  | '-' :: ' ' :: _ => true
  | _ => false

/-- The spec's commit-with-hash criterion, stated from its words: some
line of the body is dash-led (starts with a dash and a space) and
contains a backtick-quoted hexadecimal hash somewhere in the line. -/
def specDashLedCommitLine (s : String) : Bool :=
  (splitLines s.data).any (fun line => startsDashSpace line && containsTickHash line)

/-- One version block parsed by the version pattern of
`process_changelog`: the captured version string, release date and body
text up to the next version heading. -/
structure VersionBlock where
  version : String
  date : String
  changes : String
deriving DecidableEq

/-- The `defaultdict(list)` update `date_groups[date_str].append(...)`:
extend an existing date's list or open a new group at the end. The
grouped `(version, commit_lines)` entry is represented by the block it
was built from. -/
def addToGroup : List (String × List VersionBlock) → String → VersionBlock →
    List (String × List VersionBlock)
  | [], d, b => [(d, [b])]
  | (d', bs) :: rest, d, b =>
    if d' = d then (d', bs ++ [b]) :: rest else (d', bs) :: addToGroup rest d b

/-- The grouping loop of `process_changelog`: a version block is entered
into `date_groups` exactly when the `has_commits` regex search succeeds
on its body; otherwise it is skipped here and therefore absent from the
rewritten changelog, which is emitted from `date_groups` alone. -/
def buildDateGroups : List VersionBlock → List (String × List VersionBlock) →
    List (String × List VersionBlock)
  | [], groups => groups
  | b :: rest, groups =>
    if hasCommitMatch b.changes then buildDateGroups rest (addToGroup groups b.date b)
    else buildDateGroups rest groups

/-- The `date_groups` mapping after the grouping loop. -/
def date_groups (blocks : List VersionBlock) : List (String × List VersionBlock) :=
  buildDateGroups blocks []

/-- A version block appears in some date group — i.e. it was retained
for the rewritten changelog. -/
def inGroups (b : VersionBlock) (gs : List (String × List VersionBlock)) : Prop :=
  ∃ g ∈ gs, b ∈ g.2

/-- Concrete file system exposing a single existing file `data.CSV`
whose `Path.suffix` is the upper-case `.CSV`. -/
def fsCSV : FileSys :=
  ⟨fun s => s == "data.CSV", fun _ => ".CSV", fun _ _ => .error ⟨.other, "unused"⟩⟩

/-- Concrete file system with an existing text file of unsupported
format. -/
def fsTXT : FileSys :=
  ⟨fun s => s == "report.txt", fun _ => ".txt", fun _ _ => .error ⟨.other, "unused"⟩⟩

/-- Concrete result with four successful items and one failed row. -/
def exampleResult : ExtractionResult :=
  ⟨.inr [[("a", .int 1)], [("a", .int 2)], [("a", .int 3)], [("a", .int 4)]],
   [⟨0, .str "text", "boom", "2024-01-01T00:00:00"⟩], ⟨["a"]⟩⟩

/-- Concrete result with no data and no failures. -/
def emptyResult : ExtractionResult := ⟨.inr [], [], ⟨[]⟩⟩

/-- A provider/validation failure raised by the structured-completion
call inside `_extract_without_retry`: foreign to the repository, hence
not an `ExtractionError`. -/
def completionFailure : PyError := ⟨.other, "APIError: completion failed"⟩

/-- Default `Extractor` constructor tunables. -/
def defaultParams : Params := ⟨10, 100, 3, 1, 10⟩

/-- File system on which every path is missing. -/
def missingFS : FileSys :=
  ⟨fun _ => false, fun _ => ".csv", fun _ _ => .error ⟨.other, "unused"⟩⟩

/-- Stage outcomes that are never reached (file reading fails first). -/
def noOracles : Oracles :=
  ⟨.error ⟨.other, "not reached"⟩, .error ⟨.other, "not reached"⟩,
   .error ⟨.other, "not reached"⟩, .error ⟨.other, "not reached"⟩,
   fun _ _ => .error ⟨.other, "not reached"⟩, fun _ => ""⟩

/-- One-row in-memory table with a `text` column. -/
def okDF : DataFrame := ⟨["text"], [(0, [("text", .str "log line")])]⟩

/-- Stage outcomes of a fully successful pipeline run over a one-field
generated model, every row extraction yielding one item. -/
def okOracles : Oracles :=
  ⟨.ok ⟨"text", "purpose"⟩, .ok ⟨"refined", none, none⟩,
   .ok ⟨none, none, none, []⟩,
   .ok ⟨"M", "desc", [.mk "val" "str" "d" [] none], "strategy"⟩,
   fun _ _ => .ok [[("val", .str "v")]],
   fun _ => "2024-01-01T00:00:00"⟩

/-- File system whose reader returns a table with cell `"A"` when called
with no kwargs and a table with cell `"B"` when any reader kwargs are
forwarded — so the evaluated result shows which kwargs the reader saw. -/
def c6FS : FileSys :=
  ⟨fun s => s == "d.csv", fun _ => ".csv",
   fun _ kw =>
     if kw.isEmpty then .ok ⟨["text"], [(0, [("text", .str "A")])]⟩
     else .ok ⟨["text"], [(0, [("text", .str "B")])]⟩⟩

/-- The row-augmented frame `extract_batch` actually produces on `c6FS`:
built from the kwargs-free read (cell `"A"`). -/
def c6ExpectedDf : DataFrame :=
  ⟨["text", "val", "extraction_status"],
   [(0, [("text", .str "A"), ("val", .str "v"),
     ("extraction_status", .str "Success")])]⟩

/-- Version block whose body has no dash-led line, only a mid-line
`- ... <hash>` occurrence. -/
def cexRetained : VersionBlock :=
  ⟨"1.0.1", "2024-03-02", "intro - see `ab` for details\n"⟩

/-- Version block whose body is exactly one dash-led commit line with a
backtick-quoted hash but no character between `- ` and the backtick. -/
def cexDiscarded : VersionBlock :=
  ⟨"1.0.0", "2024-03-01", "- `abc` fix typo\n"⟩

/-- Two-row in-memory table for the failure-isolation run. -/
def c5DF : DataFrame :=
  ⟨["text"], [(0, [("text", .str "t0")]), (1, [("text", .str "t1")])]⟩

/-- Stage outcomes where row 0's extraction fails on every attempt with
the extraction kind and row 1 succeeds. -/
def c5Oracles : Oracles :=
  ⟨.ok ⟨"text", "purpose"⟩, .ok ⟨"refined", none, none⟩,
   .ok ⟨none, none, none, []⟩,
   .ok ⟨"M", "desc", [.mk "val" "str" "d" [] none], "strategy"⟩,
   fun i _ => if i = 0 then .error ⟨.extraction, "boom"⟩
              else .ok [[("val", .str "v")]],
   fun i => if i = 0 then "2024-05-01T10:00:00" else "2024-05-01T10:00:01"⟩

/-- C3: the claim says every guide-generation call supplies a value for
both named placeholders of `guide_template`, making the substitution's
missing-placeholder branch unreachable. The code supplies only the
`data_characteristics` mapping key while the template also references
`${available_columns}`, so `Template.substitute` raises
`KeyError("available_columns")` on every guide-generation call. -/
theorem c3_guide_prompt_missing_placeholder (rq : QueryRefinement) :
    generate_guide_user_prompt rq = .error "available_columns" := rfl

/-- C4: attempt counts of the per-row retry loop with `max_retries = 3`.
A failing completion call raises a provider/validation error - foreign
to the repository, not an `ExtractionError` (nothing inside
`_extract_without_retry` raises `ExtractionError`) - so
`retry_if_exception_type(ExtractionError)` re-raises it after exactly one
attempt instead of the claimed three, and `_extract_with_model` wraps it
into the final per-row failure. Only a failure already of the extraction
kind is retried up to 3 attempts, and a run failing twice with that kind
then succeeding ends successfully on its third attempt. -/
theorem c4_retry_attempt_counts :
    retryRun 3 (fun _ => (.error completionFailure : Except PyError (List Item))) =
      (.error completionFailure, 1) ∧
    retryRun 3
        (fun _ => (.error ⟨.extraction, "row failed"⟩ : Except PyError (List Item))) =
      (.error ⟨.extraction, "row failed"⟩, 3) ∧
    retryRun 3
        (fun n => if n < 3 then (.error ⟨.extraction, "row failed"⟩ : Except PyError (List Item))
                  else .ok [[("val", .str "v")]]) =
      (.ok [[("val", .str "v")]], 3) ∧
    extract_with_model 3 (fun _ => .error completionFailure) =
      .error ⟨.extraction,
        "Data extraction failed after all retries: APIError: completion failed"⟩ :=
  ⟨rfl, rfl, rfl, rfl⟩

/-- C10: `FileReader.validate_file` is case-insensitive on the
extension: a nonexistent path raises `FileError` before the extension is
examined (the conclusion does not depend on the suffix); an existing
path whose suffix lowercases into the supported set is returned
unchanged; any other existing path raises the unsupported-format
`FileError`. -/
theorem c10_validate_file_extension_gating (fs : FileSys) (p : String) :
    (fs.fileExists p = false →
      validate_file fs p = .error ⟨.file, "File not found: " ++ p⟩) ∧
    (fs.fileExists p = true →
      pyLower (fs.pathSuffix p) ∈ SUPPORTED_EXTENSIONS →
      validate_file fs p = .ok p) ∧
    (fs.fileExists p = true →
      pyLower (fs.pathSuffix p) ∉ SUPPORTED_EXTENSIONS →
      validate_file fs p = .error ⟨.file, "Unsupported file format: " ++
        fs.pathSuffix p ++ ". Supported formats: " ++
        String.intercalate ", " SUPPORTED_EXTENSIONS⟩) := by
  refine ⟨fun h1 => ?_, fun h1 h2 => ?_, fun h1 h2 => ?_⟩
  · simp [validate_file, h1]
  · simp [validate_file, h1, h2]
  · simp [validate_file, h1, h2]

/-- Witness for C10: the upper-case `data.CSV` validates on a file
system where it exists, a missing path fails with the file-not-found
error, and an existing `.txt` path fails the extension gate. -/
theorem c10_validate_file_extension_gating_witness :
    fsCSV.fileExists "data.CSV" = true ∧
    pyLower (fsCSV.pathSuffix "data.CSV") ∈ SUPPORTED_EXTENSIONS ∧
    validate_file fsCSV "data.CSV" = .ok "data.CSV" ∧
    fsCSV.fileExists "missing.csv" = false ∧
    validate_file fsCSV "missing.csv" =
      .error ⟨.file, "File not found: missing.csv"⟩ ∧
    fsTXT.fileExists "report.txt" = true ∧
    pyLower (fsTXT.pathSuffix "report.txt") ∉ SUPPORTED_EXTENSIONS ∧
    validate_file fsTXT "report.txt" = .error ⟨.file, "Unsupported file format: " ++
      fsTXT.pathSuffix "report.txt" ++ ". Supported formats: " ++
      String.intercalate ", " SUPPORTED_EXTENSIONS⟩ :=
  ⟨by decide, by decide,
   (c10_validate_file_extension_gating fsCSV "data.CSV").2.1 (by decide) (by decide),
   by decide,
   (c10_validate_file_extension_gating fsCSV "missing.csv").1 (by decide),
   by decide, by decide,
   (c10_validate_file_extension_gating fsTXT "report.txt").2.2 (by decide) (by decide)⟩

/-- C7: for every `ExtractionResult` with `success_count = s` and
`failure_count = f`, `success_rate` equals `s/(s+f)*100` when
`s + f > 0` and equals `0` when `s + f = 0`. -/
theorem c7_success_rate_arithmetic (r : ExtractionResult) :
    (0 < r.success_count + r.failure_count →
      r.success_rate = (r.success_count : ℚ) /
        ((r.success_count : ℚ) + (r.failure_count : ℚ)) * 100) ∧
    (r.success_count + r.failure_count = 0 → r.success_rate = 0) := by
  constructor
  · intro h
    have h' : (0 : ℚ) < (r.success_count : ℚ) + (r.failure_count : ℚ) := by
      exact_mod_cast h
    simp [ExtractionResult.success_rate, h']
  · intro h
    have h1 : r.success_count = 0 := by omega
    have h2 : r.failure_count = 0 := by omega
    simp [ExtractionResult.success_rate, h1, h2]

/-- Witness for C7: a result with `s = 4` and `f = 1` has success rate
`4/5*100 = 80`, and an empty result has success rate `0`. -/
theorem c7_success_rate_arithmetic_witness :
    0 < exampleResult.success_count + exampleResult.failure_count ∧
    exampleResult.success_rate = (exampleResult.success_count : ℚ) /
      ((exampleResult.success_count : ℚ) + (exampleResult.failure_count : ℚ)) * 100 ∧
    exampleResult.success_rate = 80 ∧
    emptyResult.success_count + emptyResult.failure_count = 0 ∧
    emptyResult.success_rate = 0 :=
  ⟨by decide, (c7_success_rate_arithmetic exampleResult).1 (by decide),
   by norm_num [ExtractionResult.success_rate, ExtractionResult.success_count,
     ExtractionResult.failure_count, exampleResult],
   by decide,
   (c7_success_rate_arithmetic emptyResult).2 (by decide)⟩

/-- Unfolding `inGroups` over a cons cell. -/
theorem inGroups_cons (b : VersionBlock) (d : String) (bs : List VersionBlock)
    (rest : List (String × List VersionBlock)) :
    inGroups b ((d, bs) :: rest) ↔ b ∈ bs ∨ inGroups b rest := by
  simp [inGroups]

/-- Membership in the flattened date grouping after `addToGroup`: the
new block is present, and existing members stay. -/
theorem mem_addToGroup (gs : List (String × List VersionBlock)) (d : String)
    (b b' : VersionBlock) :
    inGroups b (addToGroup gs d b') ↔ inGroups b gs ∨ b = b' := by
  induction gs with
  | nil => simp [addToGroup, inGroups]
  | cons g rest ih =>
    obtain ⟨d', bs⟩ := g
    by_cases h : d' = d
    · subst h
      rw [show addToGroup ((d', bs) :: rest) d' b' = (d', bs ++ [b']) :: rest from
        by simp [addToGroup]]
      rw [inGroups_cons, inGroups_cons]
      simp only [List.mem_append, List.mem_singleton]
      tauto
    · rw [show addToGroup ((d', bs) :: rest) d b' = (d', bs) :: addToGroup rest d b' from
        by simp [addToGroup, h]]
      rw [inGroups_cons, inGroups_cons, ih]
      tauto

/-- A version block is in the date grouping built from `blocks` on top
of an accumulator exactly when it was already in the accumulator or it
occurs in `blocks` with a successful commit-regex search on its body. -/
theorem mem_buildDateGroups (b : VersionBlock) (blocks : List VersionBlock) :
    ∀ gs : List (String × List VersionBlock),
    inGroups b (buildDateGroups blocks gs) ↔
      inGroups b gs ∨ (b ∈ blocks ∧ hasCommitMatch b.changes = true) := by
  induction blocks with
  | nil => intro gs; simp [buildDateGroups, inGroups]
  | cons b0 rest ih =>
    intro gs
    simp only [buildDateGroups]
    by_cases h : hasCommitMatch b0.changes = true
    · rw [if_pos h, ih, mem_addToGroup]
      constructor
      · rintro ((hgs | rfl) | ⟨hr, hm⟩)
        · exact Or.inl hgs
        · exact Or.inr ⟨List.mem_cons_self _ _, h⟩
        · exact Or.inr ⟨List.mem_cons_of_mem _ hr, hm⟩
      · rintro (hgs | ⟨hbc, hm⟩)
        · exact Or.inl (Or.inl hgs)
        · rcases List.mem_cons.mp hbc with rfl | hr
          · exact Or.inl (Or.inr rfl)
          · exact Or.inr ⟨hr, hm⟩
    · rw [if_neg h, ih]
      constructor
      · rintro (hgs | ⟨hr, hm⟩)
        · exact Or.inl hgs
        · exact Or.inr ⟨List.mem_cons_of_mem _ hr, hm⟩
      · rintro (hgs | ⟨hbc, hm⟩)
        · exact Or.inl hgs
        · rcases List.mem_cons.mp hbc with rfl | hr
          · exact absurd hm h
          · exact Or.inr ⟨hr, hm⟩

/-- C9 counterexample: `cexRetained`'s body contains no dash-led commit
line (no line starts with a dash and space) yet the block is retained in
the date grouping; `cexDiscarded`'s body is exactly one dash-led line
with a backtick-quoted hash yet the block is discarded. The code's
`re.search` accepts a match starting mid-line and requires at least one
character between the dash-space and the opening backtick. -/
theorem c9_changelog_counterexample :
    specDashLedCommitLine cexRetained.changes = false ∧
    date_groups [cexRetained] = [("2024-03-02", [cexRetained])] ∧
    specDashLedCommitLine cexDiscarded.changes = true ∧
    date_groups [cexDiscarded] = [] := by
  refine ⟨by decide, by decide, by decide, by decide⟩

/-- C9 amended: a parsed version block is retained in the date grouping
from which the rewritten changelog is emitted iff the commit regex — a
dash and space followed by at least one non-newline character and a
backtick-quoted nonempty `[a-f0-9]` run — matches anywhere within a line
of its body, not necessarily at the line's start; blocks without such a
match are discarded entirely. -/
theorem c9_empty_release_retention (blocks : List VersionBlock)
    (b : VersionBlock) (hb : b ∈ blocks) :
    inGroups b (date_groups blocks) ↔ hasCommitMatch b.changes = true := by
  rw [date_groups, mem_buildDateGroups]
  simp [inGroups, hb]

/-- Witness for C9: on the two concrete blocks, the retained one is in
the grouping and its body matches the regex. -/
theorem c9_empty_release_retention_witness :
    cexRetained ∈ [cexRetained, cexDiscarded] ∧
    (inGroups cexRetained (date_groups [cexRetained, cexDiscarded]) ↔
      hasCommitMatch cexRetained.changes = true) :=
  ⟨by simp, c9_empty_release_retention [cexRetained, cexDiscarded] cexRetained (by simp)⟩

/-- C2 counterexample: `extract` on a missing file raises
`ExtractionError("Batch extraction failed: File not found: ...")` with
the extraction kind — the original `FileError` kind is not preserved,
contrary to the claim. -/
theorem c2_file_error_counterexample :
    extract missingFS defaultParams noOracles (.inl "missing.csv") "q"
        (.bool false) false none =
      .error ⟨.extraction, "Batch extraction failed: File not found: missing.csv"⟩ ∧
    ErrKind.extraction ≠ ErrKind.file :=
  ⟨rfl, by decide⟩

/-- C2 amended: a failure of `FileReader.read_file` inside `extract`
(file errors included) is caught by the `handle_errors` wrapper of the
public operation and re-raised as `ExtractionError` with the composed
message `"Batch extraction failed: <original message>"`; only
`FileReader` itself avoids double-wrapping `FileError`. -/
theorem c2_file_error_rewrapped (fs : FileSys) (p : Params) (oc : Oracles)
    (path q : String) (rd : PyArg) (en : Bool) (kw : Option Kwargs) (e : PyError)
    (h : read_file fs path (kw.getD []) = .error e) :
    extract fs p oc (.inl path) q rd en kw =
      .error ⟨.extraction, "Batch extraction failed: " ++ e.msg⟩ := by
  simp [extract, handle_errors, h, bind, Except.bind]

/-- Witness for C2: on a file system without `absent.xlsx`, reading
fails with a `FileError` and `extract` re-raises the extraction kind. -/
theorem c2_file_error_rewrapped_witness :
    read_file missingFS "absent.xlsx" ((none : Option Kwargs).getD []) =
      .error ⟨.file, "File not found: absent.xlsx"⟩ ∧
    extract missingFS defaultParams noOracles (.inl "absent.xlsx") "q"
        (.bool false) false none =
      .error ⟨.extraction, "Batch extraction failed: File not found: absent.xlsx"⟩ :=
  ⟨rfl, c2_file_error_rewrapped missingFS defaultParams noOracles "absent.xlsx" "q"
    (.bool false) false none ⟨.file, "File not found: absent.xlsx"⟩ rfl⟩

/-- C1 counterexample: a successful `extract` call returns the 2-tuple
`(data, failed)` — not a single `ExtractionResult` object carrying
data, failed, model and usage (the code's `ExtractionResult` container
has no usage attribute and is not what `extract` returns). -/
theorem c1_extract_counterexample :
    extract fsCSV defaultParams okOracles (.inr okDF) "q" (.bool false) false none =
      .ok (.pair (.inr [[("val", .str "v")]]) []) ∧
    ExtractReturn.isResultObject (.pair (.inr [[("val", .str "v")]]) []) = false :=
  ⟨rfl, rfl⟩

/-- C1 amended: every successful `extract` call returns the pair
`(data, failed)` produced by `_process_data` — the requested-shape data
together with the failure table — rather than an `ExtractionResult`
object. -/
theorem c1_extract_returns_pair (fs : FileSys) (p : Params) (oc : Oracles)
    (df : DataFrame) (q : String) (rd : PyArg) (en : Bool)
    (res : Sum DataFrame (List Item) × List FailedRow)
    (h : process_data p oc df q rd.truthy en = .ok res) :
    extract fs p oc (.inr df) q rd en none = .ok (.pair res.1 res.2) := by
  simp [extract, handle_errors, h, bind, Except.bind]

/-- Witness for C1: on the concrete one-row run, `_process_data`
succeeds with the flat list and empty failure table, and `extract`
returns them as a pair. -/
theorem c1_extract_returns_pair_witness :
    process_data defaultParams okOracles okDF "q" (PyArg.bool false).truthy false =
      .ok (.inr [[("val", .str "v")]], []) ∧
    extract missingFS defaultParams okOracles (.inr okDF) "q" (.bool false) false none =
      .ok (.pair (.inr [[("val", .str "v")]]) []) :=
  ⟨rfl, c1_extract_returns_pair missingFS defaultParams okOracles okDF "q"
    (.bool false) false (.inr [[("val", .str "v")]], []) rfl⟩

/-- C6: evaluating `extract_batch` on a file path with non-empty
`file_kwargs` shows the bug: the kwargs are bound positionally to
`extract`'s `return_df` parameter, so the file is read with no reader
kwargs (the resulting table holds the kwargs-free cell `"A"`) and —
the dict being truthy — the per-query result takes the DataFrame shape
`Sum.inl` instead of the claimed default flat-list shape. -/
theorem c6_extract_batch_kwargs_misbound :
    extract_batch c6FS defaultParams okOracles (.inl "d.csv") ["q"]
        (some [("nrows", "5")]) =
      .ok [("q", (.inl c6ExpectedDf, []))] ∧
    (pyArgOfKwargs (some [("nrows", "5")])).truthy = true :=
  ⟨rfl, rfl⟩

/-- Inserting a fresh key with `dictInsert` appends the pair. -/
theorem dictInsert_fresh (acc : List (String × PyVal)) (k : String) (v : PyVal)
    (h : k ∉ acc.map Prod.fst) : dictInsert acc k v = acc ++ [(k, v)] := by
  induction acc with
  | nil => rfl
  | cons p rest ih =>
    obtain ⟨k', v'⟩ := p
    simp only [List.map_cons, List.mem_cons] at h
    push_neg at h
    rw [show dictInsert ((k', v') :: rest) k v =
      if k' = k then (k', v) :: rest else (k', v') :: dictInsert rest k v from rfl]
    rw [if_neg (fun hh => h.1 hh.symm)]
    rw [ih h.2]
    simp

/-- Folding `dictInsert` over pairwise-fresh, key-nodup pairs appends
them in order (so `dict.update` of such pairs into `acc` is `acc ++
pairs`). -/
theorem foldl_dictInsert_fresh (pairs : List (String × PyVal)) :
    ∀ acc : List (String × PyVal),
    (∀ p ∈ pairs, p.1 ∉ acc.map Prod.fst) →
    (pairs.map Prod.fst).Nodup →
    pairs.foldl (fun a kv => dictInsert a kv.1 kv.2) acc = acc ++ pairs := by
  induction pairs with
  | nil => intro acc _ _; simp
  | cons p rest ih =>
    intro acc hfresh hnodup
    obtain ⟨k, v⟩ := p
    simp only [List.foldl_cons]
    rw [dictInsert_fresh acc k v (hfresh (k, v) (List.mem_cons_self _ _))]
    rw [ih (acc ++ [(k, v)]) ?_ ?_]
    · simp
    · intro q hq
      simp only [List.map_append, List.mem_append, List.map_cons, List.map_nil,
        List.mem_singleton]
      push_neg
      refine ⟨fun hin => hfresh q (List.mem_cons_of_mem _ hq) hin, ?_⟩
      intro hqk
      have hk : k ∉ rest.map Prod.fst := by
        simp only [List.map_cons, List.nodup_cons] at hnodup
        exact hnodup.1
      exact hk (hqk ▸ List.mem_map_of_mem Prod.fst hq)
    · simp only [List.map_cons, List.nodup_cons] at hnodup
      exact hnodup.2

/-- Updating the empty dict with key-nodup pairs returns them. -/
theorem dictUpdate_nil (pairs : List (String × PyVal))
    (hnodup : (pairs.map Prod.fst).Nodup) : dictUpdate [] pairs = pairs := by
  rw [dictUpdate, foldl_dictInsert_fresh pairs [] (by simp) hnodup]
  simp

/-- The scalar-field loop: `flattenLoop` over int-valued fields with a
nonempty prefix appends the prefixed pairs to the accumulator. -/
theorem flattenLoop_int_fields (k : String) (hk : k ≠ "") (bs : List (String × Int)) :
    ∀ acc : List (String × PyVal),
    (∀ p ∈ bs, (k ++ "_" ++ p.1) ∉ acc.map Prod.fst) →
    ((bs.map (fun p => k ++ "_" ++ p.1)).Nodup) →
    flattenLoop (bs.map (fun p => (p.1, PyVal.int p.2))) k acc =
      .ok (acc ++ bs.map (fun p => (k ++ "_" ++ p.1, PyVal.int p.2))) := by
  induction bs with
  | nil => intro acc _ _; simp [flattenLoop]
  | cons p rest ih =>
    intro acc hfresh hnodup
    obtain ⟨b, n⟩ := p
    simp only [List.map_cons, flattenLoop]
    rw [if_pos hk]
    rw [dictInsert_fresh acc (k ++ "_" ++ b) (.int n)
      (hfresh (b, n) (List.mem_cons_self _ _))]
    rw [ih (acc ++ [(k ++ "_" ++ b, PyVal.int n)]) ?_ ?_]
    · simp
    · intro q hq
      simp only [List.map_append, List.mem_append, List.map_cons, List.map_nil,
        List.mem_singleton]
      push_neg
      refine ⟨fun hin => hfresh q (List.mem_cons_of_mem _ hq) hin, ?_⟩
      intro hqk
      have hk2 : (k ++ "_" ++ b) ∉ rest.map (fun p => k ++ "_" ++ p.1) := by
        simp only [List.map_cons, List.nodup_cons] at hnodup
        exact hnodup.1
      exact hk2 (hqk ▸ List.mem_map_of_mem (fun p => k ++ "_" ++ p.1) hq)
    · simp only [List.map_cons, List.nodup_cons] at hnodup
      exact hnodup.2

/-- C8: flattening a nested mapping. The three concrete cases of the
claim hold, and in general (for a nonempty parent key) a nested dict of
scalar fields with distinct generated keys contributes `<key>_<child>`
entries, while a list whose elements are ints is stored whole under the
unflattened key as its `json.dumps` string. -/
theorem c8_flatten_nested (k : String) (hk : k ≠ "") (bs : List (String × Int))
    (ns : List Int)
    (hnodup : (bs.map (fun p => k ++ "_" ++ p.1)).Nodup) :
    flatten_extracted_data [("a", .dict [("b", .int 1), ("c", .int 2)])] "" =
      .ok [("a_b", .int 1), ("a_c", .int 2)] ∧
    flatten_extracted_data
        [("a", .list [.dict [("b", .int 1)], .dict [("b", .int 2)]])] "" =
      .ok [("a_0_b", .int 1), ("a_1_b", .int 2)] ∧
    flatten_extracted_data [("a", .list [.int 1, .int 2, .int 3])] "" =
      .ok [("a", .str "[1, 2, 3]")] ∧
    flatten_extracted_data [(k, .dict (bs.map (fun p => (p.1, PyVal.int p.2))))] "" =
      .ok (bs.map (fun p => (k ++ "_" ++ p.1, PyVal.int p.2))) ∧
    flatten_extracted_data [(k, .list (ns.map PyVal.int))] "" =
      .ok [(k, .str (pyDumps (.list (ns.map PyVal.int))))] := by
  refine ⟨?_, ?_, ?_, ?_, ?_⟩
  · simp +decide [flatten_extracted_data, flattenLoop, flattenItems, dictUpdate,
      dictInsert]
  · simp +decide [flatten_extracted_data, flattenLoop, flattenItems, dictUpdate,
      dictInsert]
  · simp +decide [flatten_extracted_data, flattenLoop, flattenItems, dictUpdate,
      dictInsert, pyDumps, pyDumpsList, PyVal.isDict]
  · rw [flatten_extracted_data]
    simp only [flattenLoop]
    rw [show (if ("" : String) ≠ "" then "" ++ "_" ++ k else k) = k from by simp]
    rw [flattenLoop_int_fields k hk bs [] (by simp) hnodup]
    simp only [List.nil_append]
    rw [dictUpdate_nil _ (by simpa [List.map_map, Function.comp] using hnodup)]
  · cases ns with
    | nil =>
      simp [flatten_extracted_data, flattenLoop, dictInsert]
    | cons m ms =>
      simp [flatten_extracted_data, flattenLoop, PyVal.isDict, dictInsert]

/-- Witness for C8: the general clauses at the concrete key `"a"` and
fields `b = 1, c = 2` and list `[1, 2, 3]`. -/
theorem c8_flatten_nested_witness :
    (("a" : String) ≠ "" ∧
      (([("b", (1 : Int)), ("c", 2)].map
        (fun p => "a" ++ "_" ++ p.1)).Nodup)) ∧
    flatten_extracted_data [("a", .dict [("b", .int 1), ("c", .int 2)])] "" =
      .ok [("a_b", .int 1), ("a_c", .int 2)] :=
  ⟨⟨by decide, by decide⟩,
   (c8_flatten_nested "a" (by decide) [("b", 1), ("c", 2)] [1, 2, 3]
     (by decide)).1⟩

/-- Looking up the just-inserted key returns the inserted value. -/
theorem dictInsert_lookup_self (l : List (String × PyVal)) (k : String) (v : PyVal) :
    (dictInsert l k v).lookup k = some v := by
  induction l with
  | nil => simp [dictInsert, List.lookup]
  | cons p rest ih =>
    obtain ⟨k', v'⟩ := p
    by_cases h : k' = k
    · subst h
      simp [dictInsert, List.lookup]
    · have hbe : (k == k') = false := by
        simp [Ne.symm h]
      simp [dictInsert, h, List.lookup, ih, hbe]

/-- Writing a cell with `setCell` never changes the row labels. -/
theorem setCell_rows_fst (df : DataFrame) (i : Nat) (c : String) (v : PyVal) :
    (setCell df i c v).rows.map Prod.fst = df.rows.map Prod.fst := by
  simp only [setCell, List.map_map]
  congr 1
  funext r
  by_cases h : r.1 = i <;> simp [h]

/-- Adding a column with `dfSetCol` never changes the row labels. -/
theorem dfSetCol_rows_fst (df : DataFrame) (name : String) (v : PyVal) :
    (dfSetCol df name v).rows.map Prod.fst = df.rows.map Prod.fst := by
  simp [dfSetCol, List.map_map]

/-- Initializing the result frame never changes the row labels. -/
theorem initialize_results_rows_fst (df : DataFrame) (model : GenModel) :
    (initialize_results df model).rows.map Prod.fst = df.rows.map Prod.fst := by
  rw [initialize_results]
  generalize model.fieldNames ++ ["extraction_status"] = names
  induction names generalizing df with
  | nil => rfl
  | cons n rest ih => simp only [List.foldl_cons]; rw [ih, dfSetCol_rows_fst]

/-- A `foldl` of `setCell` writes never changes the row labels. -/
theorem foldl_setCell_rows_fst (j : Nat) :
    ∀ (kvs : List (String × PyVal)) (df : DataFrame),
    ((kvs.foldl (fun d kv => setCell d j kv.1 kv.2) df)).rows.map Prod.fst =
      df.rows.map Prod.fst := by
  intro kvs
  induction kvs with
  | nil => intro df; rfl
  | cons kv rest ih =>
    intro df
    simp only [List.foldl_cons]
    rw [ih, setCell_rows_fst]

/-- Running `updateLoop` never changes the row labels. -/
theorem updateLoop_rows_fst (j : Nat) (en : Bool) :
    ∀ (items : List Item) (df : DataFrame) (n : Nat),
    (updateLoop j en df items n).1.rows.map Prod.fst = df.rows.map Prod.fst := by
  intro items
  induction items with
  | nil => intro df n; simp [updateLoop, setCell_rows_fst]
  | cons item rest ih =>
    intro df n
    simp only [updateLoop]
    cases hfl : (if en then flatten_extracted_data item "" else .ok item) with
    | error e => simp
    | ok item_data =>
      simp only []
      rw [ih, foldl_setCell_rows_fst]

/-- Reading the cell just written by `setCell` (when the row exists). -/
theorem getCell_setCell_self (df : DataFrame) (i : Nat) (c : String) (v : PyVal)
    (hi : i ∈ df.rows.map Prod.fst) :
    getCell (setCell df i c v) i c = some v := by
  obtain ⟨cols, rows⟩ := df
  simp only [setCell, getCell] at *
  induction rows with
  | nil => simp at hi
  | cons r rest ih =>
    obtain ⟨j, rr⟩ := r
    simp only [List.map_cons, List.mem_cons] at hi
    by_cases h : j = i
    · subst h
      simp only [List.map_cons, if_pos rfl]
      rw [List.find?_cons_of_pos _ (by simp)]
      simp [dictInsert_lookup_self]
    · simp only [List.map_cons]
      rw [show (if (j, rr).1 = i then ((j, rr).1, dictInsert (j, rr).2 c v)
        else (j, rr)) = (j, rr) from by simp [h]]
      rw [List.find?_cons_of_neg _ (by simp [h])]
      exact ih (hi.resolve_left (fun hh => h hh.symm))

/-- A `setCell` to a different row label leaves every cell readable at
the original value. -/
theorem getCell_setCell_ne (df : DataFrame) (i j : Nat) (c c' : String) (v : PyVal)
    (hij : j ≠ i) : getCell (setCell df j c v) i c' = getCell df i c' := by
  obtain ⟨cols, rows⟩ := df
  simp only [setCell, getCell]
  induction rows with
  | nil => rfl
  | cons r rest ih =>
    obtain ⟨m, rr⟩ := r
    simp only [List.map_cons]
    by_cases hmj : m = j
    · subst hmj
      simp only [if_pos rfl]
      rw [List.find?_cons_of_neg _ (by simpa using hij),
        List.find?_cons_of_neg _ (by simpa using hij)]
      exact ih
    · simp only [if_neg hmj]
      by_cases hmi : m = i
      · subst hmi
        rw [List.find?_cons_of_pos _ (by simp), List.find?_cons_of_pos _ (by simp)]
      · rw [List.find?_cons_of_neg _ (by simpa using hmi),
          List.find?_cons_of_neg _ (by simpa using hmi)]
        exact ih

/-- A `foldl` of `setCell` writes to another row label preserves cells. -/
theorem foldl_setCell_getCell_ne (j i : Nat) (hij : j ≠ i) (c' : String) :
    ∀ (kvs : List (String × PyVal)) (df : DataFrame),
    getCell (kvs.foldl (fun d kv => setCell d j kv.1 kv.2) df) i c' =
      getCell df i c' := by
  intro kvs
  induction kvs with
  | nil => intro df; rfl
  | cons kv rest ih =>
    intro df
    simp only [List.foldl_cons]
    rw [ih, getCell_setCell_ne _ _ _ _ _ _ hij]

/-- Running `updateLoop` on another row label preserves cells. -/
theorem updateLoop_getCell_ne (j i : Nat) (hij : j ≠ i) (en : Bool) (c' : String) :
    ∀ (items : List Item) (df : DataFrame) (n : Nat),
    getCell (updateLoop j en df items n).1 i c' = getCell df i c' := by
  intro items
  induction items with
  | nil => intro df n; simp [updateLoop, getCell_setCell_ne _ _ _ _ _ _ hij]
  | cons item rest ih =>
    intro df n
    simp only [updateLoop]
    cases hfl : (if en then flatten_extracted_data item "" else .ok item) with
    | error e => simp
    | ok item_data =>
      simp only []
      rw [ih, foldl_setCell_getCell_ne j i hij]

/-- A worker whose `_extract_with_model` outcome is a failure applies
`_handle_extraction_error` to the incoming state. -/
theorem extract_worker_of_error (p : Params) (oc : Oracles) (rd en : Bool)
    (st : ResultState) (text : PyVal) (j : Nat) (e : PyError)
    (h : extract_with_model p.max_retries (oc.rowAttempt j) = .error e) :
    extract_worker p oc rd en st text j =
      handle_extraction_error st j text e (oc.nowAt j) := by
  simp [extract_worker, h]

/-- A worker never changes the row labels of the result frame. -/
theorem extract_worker_rows_fst (p : Params) (oc : Oracles) (rd en : Bool)
    (st : ResultState) (text : PyVal) (j : Nat) :
    (extract_worker p oc rd en st text j).result_df.rows.map Prod.fst =
      st.result_df.rows.map Prod.fst := by
  unfold extract_worker
  cases h : extract_with_model p.max_retries (oc.rowAttempt j) with
  | error e => simp [handle_extraction_error, setCell_rows_fst]
  | ok items =>
    by_cases hrd : rd
    · simp only [hrd, if_true]
      rcases hud : update_dataframe st.result_df items j en with ⟨df2, eopt⟩
      have hdf : df2.rows.map Prod.fst = st.result_df.rows.map Prod.fst := by
        have hul := updateLoop_rows_fst j en items st.result_df 0
        rw [update_dataframe] at hud
        rw [hud] at hul
        exact hul
      cases eopt with
      | none => simpa using hdf
      | some e => simp [handle_extraction_error, setCell_rows_fst, hdf]
    · simp [hrd]

/-- A worker for another row label preserves every cell of that row. -/
theorem extract_worker_getCell_ne (p : Params) (oc : Oracles) (rd en : Bool)
    (st : ResultState) (text : PyVal) (j i : Nat) (c : String) (hij : j ≠ i) :
    getCell (extract_worker p oc rd en st text j).result_df i c =
      getCell st.result_df i c := by
  unfold extract_worker
  cases h : extract_with_model p.max_retries (oc.rowAttempt j) with
  | error e => simp [handle_extraction_error, getCell_setCell_ne _ _ _ _ _ _ hij]
  | ok items =>
    by_cases hrd : rd
    · simp only [hrd, if_true]
      rcases hud : update_dataframe st.result_df items j en with ⟨df2, eopt⟩
      have hdf : getCell df2 i c = getCell st.result_df i c := by
        have hul := updateLoop_getCell_ne j i hij en c items st.result_df 0
        rw [update_dataframe] at hud
        rw [hud] at hul
        exact hul
      cases eopt with
      | none => simpa using hdf
      | some e => simp [handle_extraction_error, getCell_setCell_ne _ _ _ _ _ _ hij, hdf]
    · simp [hrd]

/-- A worker only ever appends to the failure ledger. -/
theorem extract_worker_failed_shape (p : Params) (oc : Oracles) (rd en : Bool)
    (st : ResultState) (text : PyVal) (j : Nat) :
    ∃ tail, (extract_worker p oc rd en st text j).failed_rows =
      st.failed_rows ++ tail := by
  unfold extract_worker
  cases h : extract_with_model p.max_retries (oc.rowAttempt j) with
  | error e => exact ⟨[⟨j, text, e.msg, oc.nowAt j⟩], rfl⟩
  | ok items =>
    by_cases hrd : rd
    · simp only [hrd, if_true]
      rcases hud : update_dataframe st.result_df items j en with ⟨df2, eopt⟩
      cases eopt with
      | none => exact ⟨[], by simp⟩
      | some e => exact ⟨[⟨j, text, e.msg, oc.nowAt j⟩], rfl⟩
    · exact ⟨[], by simp [hrd]⟩

/-- Splitting a batch run at an append point. -/
theorem process_batch_append (p : Params) (oc : Oracles) (rd en : Bool)
    (tc : String) (l1 l2 : List (Nat × Row)) :
    ∀ st : ResultState,
    process_batch p oc rd en tc (l1 ++ l2) st =
      match process_batch p oc rd en tc l1 st with
      | .error e => .error e
      | .ok st2 => process_batch p oc rd en tc l2 st2 := by
  induction l1 with
  | nil => intro st; simp [process_batch]
  | cons r rest ih =>
    intro st
    obtain ⟨idx, row⟩ := r
    simp only [List.cons_append, process_batch]
    cases row.lookup tc with
    | none => rfl
    | some text => exact ih _

/-- The batch loop over chunk slices equals one pass over their
concatenation. -/
theorem runAllBatches_eq_join (p : Params) (oc : Oracles) (rd en : Bool)
    (tc : String) :
    ∀ (bs : List (List (Nat × Row))) (st : ResultState),
    runAllBatches p oc rd en tc bs st =
      process_batch p oc rd en tc bs.flatten st := by
  intro bs
  induction bs with
  | nil => intro st; simp [runAllBatches, process_batch]
  | cons b rest ih =>
    intro st
    simp only [runAllBatches, List.flatten_cons]
    rw [process_batch_append]
    cases process_batch p oc rd en tc b st with
    | error e => rfl
    | ok st2 => exact ih st2

/-- With a positive chunk size and enough fuel, the chunks concatenate
back to the original list. -/
theorem chunksGo_join {α : Type} (n : Nat) (hn : 0 < n) :
    ∀ (fuel : Nat) (l : List α), l.length ≤ fuel →
      (chunksGo n fuel l).flatten = l := by
  intro fuel
  induction fuel with
  | zero =>
    intro l hl
    cases l with
    | nil => simp [chunksGo]
    | cons x xs => simp at hl
  | succ f ih =>
    intro l hl
    cases l with
    | nil => simp [chunksGo]
    | cons x xs =>
      simp only [chunksGo, List.flatten_cons]
      rw [ih ((x :: xs).drop n)
        (by rw [List.length_drop]; simp only [List.length_cons] at hl ⊢; omega)]
      exact List.take_append_drop n (x :: xs)

/-- The failure-isolation invariant over one batch-loop pass: under
well-formed rows (target column present, distinct labels existing in the
result frame) the pass always succeeds, labels are preserved, the
failure ledger only grows, untouched rows keep their cells, and every
row whose `_extract_with_model` outcome is an error ends with its
failure record in the ledger and its `extraction_status` cell set. -/
theorem process_batch_ledger (p : Params) (oc : Oracles) (rd en : Bool)
    (tc : String) :
    ∀ (rows : List (Nat × Row)) (st : ResultState),
    (∀ r ∈ rows, (r.2.lookup tc).isSome) →
    ((rows.map Prod.fst).Nodup) →
    (∀ r ∈ rows, r.1 ∈ st.result_df.rows.map Prod.fst) →
    ∃ st2, process_batch p oc rd en tc rows st = .ok st2 ∧
      st2.result_df.rows.map Prod.fst = st.result_df.rows.map Prod.fst ∧
      (∀ x ∈ st.failed_rows, x ∈ st2.failed_rows) ∧
      (∀ i c, i ∉ rows.map Prod.fst →
        getCell st2.result_df i c = getCell st.result_df i c) ∧
      (∀ i row e, (i, row) ∈ rows →
        extract_with_model p.max_retries (oc.rowAttempt i) = .error e →
        (⟨i, (row.lookup tc).getD .pynone, e.msg, oc.nowAt i⟩ ∈ st2.failed_rows ∧
         getCell st2.result_df i "extraction_status" =
           some (.str ("Failed: " ++ e.msg)))) := by
  intro rows
  induction rows with
  | nil =>
    intro st _ _ _
    exact ⟨st, rfl, rfl, fun x hx => hx, fun i c _ => rfl, fun i row e hmem => by
      simp at hmem⟩
  | cons r rest ih =>
    intro st hcols hnodup hlabels
    obtain ⟨j, row⟩ := r
    have hlook : (row.lookup tc).isSome := hcols (j, row) (List.mem_cons_self _ _)
    obtain ⟨text, htext⟩ := Option.isSome_iff_exists.mp hlook
    have hjlab : j ∈ st.result_df.rows.map Prod.fst :=
      hlabels (j, row) (List.mem_cons_self _ _)
    have hjrest : j ∉ rest.map Prod.fst := by
      simp only [List.map_cons, List.nodup_cons] at hnodup
      exact hnodup.1
    set st1 := extract_worker p oc rd en st text j with hst1
    have hlab1 : st1.result_df.rows.map Prod.fst = st.result_df.rows.map Prod.fst :=
      extract_worker_rows_fst p oc rd en st text j
    obtain ⟨st2, hrun, hlab2, hmono2, hpres2, hper2⟩ :=
      ih st1
        (fun r hr => hcols r (List.mem_cons_of_mem _ hr))
        (by simp only [List.map_cons, List.nodup_cons] at hnodup; exact hnodup.2)
        (fun r hr => by
          rw [hlab1]; exact hlabels r (List.mem_cons_of_mem _ hr))
    refine ⟨st2, ?_, ?_, ?_, ?_, ?_⟩
    · simp only [process_batch, htext]
      exact hrun
    · rw [hlab2, hlab1]
    · intro x hx
      obtain ⟨tail, htail⟩ := extract_worker_failed_shape p oc rd en st text j
      exact hmono2 x (by rw [← hst1] at htail; rw [htail]; exact List.mem_append_left _ hx)
    · intro i c hi
      simp only [List.map_cons, List.mem_cons] at hi
      push_neg at hi
      rw [hpres2 i c hi.2, hst1,
        extract_worker_getCell_ne p oc rd en st text j i c (fun hh => hi.1 hh.symm)]
    · intro i row2 e hmem hfail
      rcases List.mem_cons.mp hmem with heq | hmemrest
      · rw [Prod.mk.injEq] at heq
        obtain ⟨rfl, rfl⟩ := heq
        have hw : st1 = handle_extraction_error st _ text e (oc.nowAt _) :=
          extract_worker_of_error p oc rd en st text _ e hfail
        constructor
        · apply hmono2
          rw [hw]
          simp [handle_extraction_error, htext]
        · rw [hpres2 _ _ hjrest, hw]
          simp only [handle_extraction_error]
          exact getCell_setCell_self _ _ _ _ hjlab
      · exact hper2 i row2 e hmemrest hfail

/-- C5: per-row extraction failures are isolated. Under a successful
initialization, a target column present in every row and distinct row
labels, `_process_data` — and hence `extract` — succeeds (no row failure
propagates as an exception), and every row whose `_extract_with_model`
outcome is an error is recorded in the failed table with its index, its
source text, the human-readable message and the
`datetime.now().isoformat()` reading taken at failure, its
`extraction_status` cell reads `"Failed: <message>"`, and the remaining
rows are still processed (their outcomes, successful or failed, all land
in the same returned state). -/
theorem c5_row_failures_isolated (p : Params) (oc : Oracles) (df : DataFrame)
    (q : String) (rd en : Bool) (ib : InitBundle) (b : Nat)
    (hbs : p.batch_size = b + 1)
    (hinit : initialize_extraction oc df q = .ok ib)
    (hcols : ∀ r ∈ df.rows, (r.2.lookup ib.query_analysis.target_column).isSome)
    (hnodup : (df.rows.map Prod.fst).Nodup) :
    ∃ st : ResultState,
      process_data p oc df q rd en =
        .ok ((if rd then .inl st.result_df else .inr st.result_list),
          st.failed_rows) ∧
      (∀ fs : FileSys, extract fs p oc (.inr df) q (.bool rd) en none =
        .ok (.pair (if rd then .inl st.result_df else .inr st.result_list)
          st.failed_rows)) ∧
      ∀ i row e, (i, row) ∈ df.rows →
        extract_with_model p.max_retries (oc.rowAttempt i) = .error e →
        (⟨i, (row.lookup ib.query_analysis.target_column).getD .pynone, e.msg,
            oc.nowAt i⟩ ∈ st.failed_rows ∧
         getCell st.result_df i "extraction_status" =
           some (.str ("Failed: " ++ e.msg))) := by
  have hlab0 : ∀ r ∈ df.rows,
      r.1 ∈ (initialize_results df ib.model).rows.map Prod.fst := by
    intro r hr
    rw [initialize_results_rows_fst]
    exact List.mem_map_of_mem Prod.fst hr
  obtain ⟨st2, hrun, hlab, hmono, hpres, hper⟩ :=
    process_batch_ledger p oc rd en ib.query_analysis.target_column df.rows
      ⟨initialize_results df ib.model, [], []⟩ hcols hnodup hlab0
  have hproc : process_data p oc df q rd en =
      .ok ((if rd then .inl st2.result_df else .inr st2.result_list),
        st2.failed_rows) := by
    simp only [process_data, handle_errors, hinit, hbs, bind, Except.bind]
    rw [runAllBatches_eq_join]
    rw [chunksOf, chunksGo_join (b + 1) (Nat.succ_pos b) df.rows.length df.rows le_rfl]
    rw [hrun]
  refine ⟨st2, hproc, ?_, hper⟩
  intro fs
  simp [extract, handle_errors, hproc, bind, Except.bind, PyArg.truthy]

/-- Witness for C5: the two-row run where row 0 fails every attempt
with the extraction kind and row 1 succeeds satisfies every hypothesis,
so processing succeeds with row 0 recorded in the ledger. -/
theorem c5_row_failures_isolated_witness :
    initialize_extraction c5Oracles c5DF "q" =
      .ok ⟨⟨"text", "purpose"⟩, ⟨"refined", none, none⟩,
        ⟨none, none, none, []⟩, ⟨["val"]⟩⟩ ∧
    (∀ r ∈ c5DF.rows, (r.2.lookup "text").isSome) ∧
    (c5DF.rows.map Prod.fst).Nodup ∧
    ∃ st : ResultState,
      process_data defaultParams c5Oracles c5DF "q" false false =
        .ok ((if false then .inl st.result_df else .inr st.result_list),
          st.failed_rows) ∧
      (∀ fs : FileSys, extract fs defaultParams c5Oracles (.inr c5DF) "q"
          (.bool false) false none =
        .ok (.pair (if false then .inl st.result_df else .inr st.result_list)
          st.failed_rows)) ∧
      ∀ i row e, (i, row) ∈ c5DF.rows →
        extract_with_model defaultParams.max_retries (c5Oracles.rowAttempt i) =
          .error e →
        (⟨i, (row.lookup "text").getD .pynone, e.msg, c5Oracles.nowAt i⟩ ∈
            st.failed_rows ∧
         getCell st.result_df i "extraction_status" =
           some (.str ("Failed: " ++ e.msg))) :=
  ⟨rfl, by decide, by decide,
   c5_row_failures_isolated defaultParams c5Oracles c5DF "q" false false
     ⟨⟨"text", "purpose"⟩, ⟨"refined", none, none⟩, ⟨none, none, none, []⟩,
       ⟨["val"]⟩⟩ 99 rfl rfl (by decide) (by decide)⟩

end Structx
